import Mathlib

/-!
Shallow embedding of `LupaAlGiro_Clientes.py` (ADRES payment-extraction
script).  The core embedded here is the record reconstructor
`limpiar_datos` together with models of the fetch wrapper
`extraer_datos_nit` and the pipeline driver `main`.
-/

namespace LupaAlGiro

/-- Model of the Python whitespace class used by `str.strip()`. -/
def esEspacio (c : Char) : Bool :=
  c = ' ' || c = '\t' || c = '\n' || c = '\r' || c = '\x0b' || c = '\x0c'

/-- Model of Python `str.strip()`: drop leading and trailing whitespace. -/
def recortar (s : String) : String :=
  String.mk (((s.toList.dropWhile esEspacio).reverse.dropWhile esEspacio).reverse)

/-- Line 184 of the source: `[str(c).strip() for c in row if str(c).strip() != ""]`. -/
def compactar (fila : List String) : List String :=
  (fila.map recortar).filter (fun c => c ≠ "")

/-- Character-list test used to model the Python substring operator `in`. -/
def esPrefijo : List Char → List Char → Bool
  | [], _ => true
  | _ :: _, [] => false
  | a :: resto, b :: restoB => a = b && esPrefijo resto restoB

/-- Auxiliary scan for substring containment over character lists. -/
def contieneEn (sub : List Char) : List Char → Bool
  | [] => esPrefijo sub []
  | c :: resto => esPrefijo sub (c :: resto) || contieneEn sub resto

/-- Model of Python `sub in s` (substring containment). -/
def contieneSub (s sub : String) : Bool :=
  contieneEn sub.toList s.toList

/-- Auxiliary recursion for Python `str.split(sep, maxsplit)` over char lists.
The accumulator holds the current segment reversed. -/
def pySplitAux (sep : Char) : List Char → Nat → List Char → List (List Char)
  | [], _, acc => [acc.reverse]
  | c :: resto, 0, acc => pySplitAux sep resto 0 (c :: acc)
  | c :: resto, n + 1, acc =>
    if c = sep then acc.reverse :: pySplitAux sep resto n []
    else pySplitAux sep resto (n + 1) (c :: acc)

/-- Model of Python `s.split(sep, maxsplit)` for a single-character separator,
as used at line 193: `cell.split('-', 2)`. -/
def pySplit (s : String) (sep : Char) (maxsplit : Nat) : List String :=
  (pySplitAux sep s.toList maxsplit []).map String.mk

/-- A reconstructed record before numeric normalization (lines 195-202). -/
structure Registro where
  NIT_IPS : String
  Nombre_IPS : String
  Fecha_Giro : String
  Valor : String
  Concepto : String
  Entidad : String
deriving DecidableEq, Repr

/-- One attempt at reconstruction from the anchor at index `idx` of the
compact cell list (lines 187-202).  Returns `none` when the anchor is
absent, the value candidate is out of range, the value candidate fails the
currency-or-digit gate, or the dash split yields fewer than three parts. -/
def intentarAncla (cols : List String) (idx : Nat) : Option Registro :=
  let cell := cols.getD idx ""
  if contieneSub cell "NIT-" ∧ idx + 2 < cols.length then
    let posibleValor := cols.getD (idx + 2) ""
    if ¬ posibleValor.toList.contains '$' ∧ ¬ posibleValor.toList.any Char.isDigit then
      none
    else
      let partes := pySplit cell '-' 2
      if 3 ≤ partes.length then
        some {
          NIT_IPS := partes.getD 1 ""
          Nombre_IPS := partes.getD 2 ""
          Fecha_Giro := cols.getD (idx + 1) ""
          Valor := posibleValor
          Concepto := if idx + 3 < cols.length then cols.getD (idx + 3) "" else "N/A"
          Entidad := if idx + 4 < cols.length then cols.getD (idx + 4) "" else "N/A" }
      else
        none
  else
    none

/-- The cell scan of one row (lines 186-205): walk the compact cell list left
to right, `continue` on every failed anchor, and `break` after the first
record is appended.  `resto` is the suffix of `cols` from position `idx`. -/
def escanearDesde (cols : List String) : List String → Nat → List Registro
  | [], _ => []
  | _ :: resto, idx =>
    match intentarAncla cols idx with
    | some r => [r]
    | none => escanearDesde cols resto (idx + 1)

/-- Records emitted by one row of the corpus. -/
def escanearFila (cols : List String) : List Registro :=
  escanearDesde cols cols 0

/-- Model of the padding performed by `pd.DataFrame(extraccion_bruta)` at
line 180: shorter rows are filled with missing values, which `str(c)`
renders as the non-empty text `"None"`. -/
def padCorpus (corpus : List (List String)) : List (List String) :=
  let m := (corpus.map List.length).foldr max 0
  corpus.map (fun fila => fila ++ List.replicate (m - fila.length) "None")

/-- Line 212: `replace(r'[\$,\.]', '', regex=True)` — remove every dollar
sign, comma and period. -/
def limpiarValor (s : String) : String :=
  String.mk (s.toList.filter (fun c => ¬ (c = '$' ∨ c = ',' ∨ c = '.')))

/-- Numeric value of a digit list, most significant first. -/
def digitosVal (l : List Char) : Nat :=
  l.foldl (fun acc c => acc * 10 + (c.toNat - '0'.toNat)) 0

/-- Model of `pd.to_numeric(errors='coerce')` on the stripped value strings:
an optional sign followed by a non-empty run of digits parses to an integer,
anything else coerces to missing (`none`). -/
def parseNumero (s : String) : Option Int :=
  match (recortar s).toList with
  | [] => none
  | '-' :: resto =>
    if resto ≠ [] ∧ resto.all Char.isDigit then some (-(digitosVal resto : Int)) else none
  | '+' :: resto =>
    if resto ≠ [] ∧ resto.all Char.isDigit then some ((digitosVal resto : Int)) else none
  | l => if l.all Char.isDigit then some ((digitosVal l : Int)) else none

/-- A record of the final cleaned dataset, with `Valor` coerced to a number. -/
structure RegistroLimpio where
  NIT_IPS : String
  Nombre_IPS : String
  Fecha_Giro : String
  Valor : Int
  Concepto : String
  Entidad : String
deriving DecidableEq, Repr

/-- Lines 211-214: coerce `Valor` to numeric; `dropna` discards the record
when coercion fails. -/
def normalizarRegistro (r : Registro) : Option RegistroLimpio :=
  (parseNumero (limpiarValor r.Valor)).map (fun v =>
    { NIT_IPS := r.NIT_IPS, Nombre_IPS := r.Nombre_IPS, Fecha_Giro := r.Fecha_Giro,
      Valor := v, Concepto := r.Concepto, Entidad := r.Entidad })

/-- The record reconstructor `limpiar_datos` (lines 167-216). -/
def limpiar_datos (extraccion_bruta : List (List String)) : List RegistroLimpio :=
  if extraccion_bruta = [] then []
  else
    let registros := (padCorpus extraccion_bruta).flatMap (fun fila => escanearFila (compactar fila))
    registros.filterMap normalizarRegistro

/-- The fetch wrapper `extraer_datos_nit` (lines 111-164): the fallible body
(navigation, iframe location, form injection, render wait, parsing) is
modelled by its outcome; any exception is caught and an empty row list is
returned (lines 159-161). -/
def extraer_datos_nit (pasos : Except String (List (List String))) : List (List String) :=
  match pasos with
  | Except.ok filas => filas
  | Except.error _ => []

/-- Line 235: `list(dict.fromkeys(...))` — deduplicate keeping first-seen order. -/
def dedupAux : List String → List String → List String
  | [], _ => []
  | x :: resto, vistos =>
    if vistos.contains x then dedupAux resto vistos else x :: dedupAux resto (x :: vistos)

/-- Observable outcome of one run of `main`. -/
structure ResultadoMain where
  intentados : List String
  quitLlamado : Bool
  datos : List RegistroLimpio
deriving Repr

/-- The pipeline driver `main` (lines 219-283): deduplicate the identifiers,
verify the session (on failure, `return` at line 247 without `driver.quit()`),
otherwise fetch every identifier — each fetch outcome given by `resultadoFetch`
— accumulate the rows, quit the driver (line 265) and clean the corpus. -/
def main (nits : List String) (verificacionOk : Bool)
    (resultadoFetch : String → Except String (List (List String))) : ResultadoMain :=
  let nitsUnicos := dedupAux nits []
  if verificacionOk then
    let corpus := nitsUnicos.flatMap (fun nit => extraer_datos_nit (resultadoFetch nit))
    { intentados := nitsUnicos, quitLlamado := true, datos := limpiar_datos corpus }
  else
    { intentados := [], quitLlamado := false, datos := [] }

/-! ### Helper lemmas -/

/-- The row scan from position `idx` over the suffix `resto` returns the
first successful anchor attempt among the positions it visits. -/
lemma escanearDesde_eq_findSome (cols : List String) (resto : List String) :
    ∀ idx : Nat, escanearDesde cols resto idx =
      ((List.range' idx resto.length).findSome? (intentarAncla cols)).toList := by
  induction resto with
  | nil => intro idx; simp [escanearDesde]
  | cons c resto ih =>
    intro idx
    simp only [List.length_cons, List.range'_succ, List.findSome?_cons]
    cases h : intentarAncla cols idx with
    | some r => simp [escanearDesde, h]
    | none => simp [escanearDesde, h, ih (idx + 1)]

/-- The full row scan is the first successful anchor attempt over all indices. -/
lemma escanearFila_eq_findSome (cols : List String) :
    escanearFila cols = ((List.range cols.length).findSome? (intentarAncla cols)).toList := by
  rw [escanearFila, escanearDesde_eq_findSome cols cols 0, List.range_eq_range']

/-- Removing from the scan order an element on which the scan body fails does
not change the first success. -/
lemma findSome?_filter_ne {α β : Type} [DecidableEq α] (f : α → Option β) (a : α)
    (hf : f a = none) :
    ∀ l : List α, l.findSome? f = (l.filter (fun x => x ≠ a)).findSome? f := by
  intro l
  induction l with
  | nil => simp
  | cons b l ih =>
    by_cases hb : b = a
    · subst hb
      simp [List.findSome?_cons, hf, List.filter_cons, ih]
    · rw [List.filter_cons, if_pos (by simp [hb])]
      cases h : f b with
      | some r => simp [List.findSome?_cons, h]
      | none => simp [List.findSome?_cons, h, ih]

/-- Python `split` with `maxsplit = n` returns at most `n + 1` parts. -/
lemma pySplitAux_length (sep : Char) :
    ∀ (l : List Char) (n : Nat) (acc : List Char),
      (pySplitAux sep l n acc).length ≤ n + 1 := by
  intro l
  induction l with
  | nil => intro n acc; simp [pySplitAux]
  | cons c resto ih =>
    intro n acc
    cases n with
    | zero => simpa [pySplitAux] using ih 0 (c :: acc)
    | succ m =>
      by_cases hc : c = sep
      · simp only [pySplitAux, if_pos hc, List.length_cons]
        have := ih m []
        omega
      · simpa [pySplitAux, hc] using ih (m + 1) (c :: acc)

/-- Python `split` never returns an empty list of parts. -/
lemma pySplitAux_ne_nil (sep : Char) :
    ∀ (l : List Char) (n : Nat) (acc : List Char), pySplitAux sep l n acc ≠ [] := by
  intro l
  induction l with
  | nil => intro n acc; simp [pySplitAux]
  | cons c resto ih =>
    intro n acc
    cases n with
    | zero => simpa [pySplitAux] using ih 0 (c :: acc)
    | succ m =>
      by_cases hc : c = sep
      · simp [pySplitAux, hc]
      · simpa [pySplitAux, hc] using ih (m + 1) (c :: acc)

/-- Joining parts with the separator, inverse of `pySplitAux`. -/
def unirCon (sep : Char) : List (List Char) → List Char
  | [] => []
  | [x] => x
  | x :: y :: resto => x ++ sep :: unirCon sep (y :: resto)

/-- Rejoining the parts produced by `pySplitAux` recovers the input, so the
final part keeps every separator character beyond the split budget. -/
lemma unirCon_pySplitAux (sep : Char) :
    ∀ (l : List Char) (n : Nat) (acc : List Char),
      unirCon sep (pySplitAux sep l n acc) = acc.reverse ++ l := by
  intro l
  induction l with
  | nil => intro n acc; simp [pySplitAux, unirCon]
  | cons c resto ih =>
    intro n acc
    cases n with
    | zero =>
      rw [show pySplitAux sep (c :: resto) 0 acc = pySplitAux sep resto 0 (c :: acc) from rfl]
      rw [ih 0 (c :: acc)]
      simp
    | succ m =>
      by_cases hc : c = sep
      · simp only [pySplitAux, if_pos hc]
        obtain ⟨y, ys, hys⟩ := List.exists_cons_of_ne_nil (pySplitAux_ne_nil sep resto m [])
        rw [hys, unirCon, ← hys, ih m []]
        simp [hc]
      · simp only [pySplitAux, if_neg hc]
        rw [ih (m + 1) (c :: acc)]
        simp

/-! ### Claim theorems -/

/-- Claim C1: for the corpus consisting of the single raw row
`["x", "NIT-802010614-Hospital San Jose", "15/01/2025", "$5.000.000",
"Anticipo", "ADRES"]`, the reconstructor `limpiar_datos` produces exactly
one record with the institution id `802010614`, name `Hospital San Jose`,
date `15/01/2025`, numeric value `5000000`, concept `Anticipo` and entity
`ADRES`. -/
theorem C1_end_to_end :
    limpiar_datos
        [["x", "NIT-802010614-Hospital San Jose", "15/01/2025", "$5.000.000",
          "Anticipo", "ADRES"]] =
      [{ NIT_IPS := "802010614", Nombre_IPS := "Hospital San Jose",
         Fecha_Giro := "15/01/2025", Valor := 5000000,
         Concepto := "Anticipo", Entidad := "ADRES" }] := by
  decide

/-- Claim C2 is false as stated: this raw row has six cells, only three of
which are non-empty after stripping — so at most five cells remain — yet
`limpiar_datos` emits one record from it, not zero. -/
theorem C2_counterexample :
    (compactar ["", "", "", "NIT-1-A", "d", "$5"]).length ≤ 5 ∧
      limpiar_datos [["", "", "", "NIT-1-A", "d", "$5"]] =
        [{ NIT_IPS := "1", Nombre_IPS := "A", Fecha_Giro := "d", Valor := 5,
           Concepto := "N/A", Entidad := "N/A" }] := by
  decide

/-- Claim C2, amended: the reconstructor itself has no more-than-five-cells
filter (that filter lives in the fetcher); the bound it does enforce is
structural: a row with fewer than three cells after stripping empties can
never place a value candidate at anchor offset two, so it emits zero
records. -/
theorem C2_amended (fila : List String) (h : (compactar fila).length < 3) :
    limpiar_datos [fila] = [] := by
  have hpad : padCorpus [fila] = [fila] := by
    simp [padCorpus]
  have hnone : ∀ j, intentarAncla (compactar fila) j = none := by
    intro j
    unfold intentarAncla
    have hj : ¬ (j + 2 < (compactar fila).length) := by omega
    simp [hj]
  have hscan : escanearFila (compactar fila) = [] := by
    rw [escanearFila_eq_findSome]
    rw [List.findSome?_eq_none_iff.mpr (fun x _ => hnone x)]
    rfl
  rw [limpiar_datos, if_neg (by simp)]
  simp [hpad, hscan]

/-- Witness for the amended claim C2 at a concrete two-cell row. -/
theorem C2_witness : limpiar_datos [["a", "b"]] = [] :=
  C2_amended ["a", "b"] (by decide)

/-- Claim C3: an anchor cell whose value candidate at offset two contains
neither a dollar sign nor any digit contributes no record, and the row scan
behaves exactly as if that position were not visited at all — it continues
with the remaining cells. -/
theorem C3_gate_rejects (cols : List String) (idx : Nat)
    (hanchor : contieneSub (cols.getD idx "") "NIT-" = true)
    (hdollar : (cols.getD (idx + 2) "").toList.contains '$' = false)
    (hdigito : (cols.getD (idx + 2) "").toList.any Char.isDigit = false) :
    intentarAncla cols idx = none ∧
      escanearFila cols =
        (((List.range cols.length).filter (fun j => j ≠ idx)).findSome?
            (intentarAncla cols)).toList := by
  have hnone : intentarAncla cols idx = none := by
    by_cases hr : idx + 2 < cols.length
    · have hgate : ¬ ((cols.getD (idx + 2) "").toList.contains '$' = true) ∧
          ¬ ((cols.getD (idx + 2) "").toList.any Char.isDigit = true) :=
        ⟨by simpa using hdollar, by simpa using hdigito⟩
      simp only [intentarAncla]
      rw [if_pos ⟨hanchor, hr⟩, if_pos hgate]
    · simp only [intentarAncla]
      rw [if_neg (fun hcon => hr hcon.2)]
  refine ⟨hnone, ?_⟩
  rw [escanearFila_eq_findSome,
    findSome?_filter_ne (intentarAncla cols) idx hnone (List.range cols.length)]

/-- Witness for claim C3: the anchor in this row is followed two cells later
by plain text, so it yields no record. -/
theorem C3_witness :
    intentarAncla ["NIT-123-ClinicName", "date", "note", "bar"] 0 = none :=
  (C3_gate_rejects ["NIT-123-ClinicName", "date", "note", "bar"] 0
    (by decide) (by decide) (by decide)).1

/-- Claim C4: each row emits at most one record, namely the one produced by
the first position, scanning left to right, whose anchor attempt succeeds
(anchor present, value candidate in range and accepted, dash split of arity
at least three); every later anchor is ignored. -/
theorem C4_at_most_one (cols : List String) :
    (escanearFila cols).length ≤ 1 ∧
      escanearFila cols =
        ((List.range cols.length).findSome? (intentarAncla cols)).toList := by
  refine ⟨?_, escanearFila_eq_findSome cols⟩
  rw [escanearFila_eq_findSome]
  cases (List.range cols.length).findSome? (intentarAncla cols) <;> simp

/-- Claim C5: for an accepted anchor (anchor marker present, value candidate
in range and passing the currency-or-digit gate), the anchor token is split
on its dashes into at most three parts; with at least three parts the record
takes its institution id from the second part and its name from the third,
and with fewer than three parts no record is emitted for that anchor. -/
theorem C5_dash_split (cols : List String) (idx : Nat)
    (hanchor : contieneSub (cols.getD idx "") "NIT-" = true)
    (hrango : idx + 2 < cols.length)
    (hgate : (cols.getD (idx + 2) "").toList.contains '$' = true ∨
      (cols.getD (idx + 2) "").toList.any Char.isDigit = true) :
    (pySplit (cols.getD idx "") '-' 2).length ≤ 3 ∧
      (3 ≤ (pySplit (cols.getD idx "") '-' 2).length →
        intentarAncla cols idx = some {
          NIT_IPS := (pySplit (cols.getD idx "") '-' 2).getD 1 ""
          Nombre_IPS := (pySplit (cols.getD idx "") '-' 2).getD 2 ""
          Fecha_Giro := cols.getD (idx + 1) ""
          Valor := cols.getD (idx + 2) ""
          Concepto := if idx + 3 < cols.length then cols.getD (idx + 3) "" else "N/A"
          Entidad := if idx + 4 < cols.length then cols.getD (idx + 4) "" else "N/A" }) ∧
      ((pySplit (cols.getD idx "") '-' 2).length < 3 →
        intentarAncla cols idx = none) := by
  have hngate : ¬ (¬ ((cols.getD (idx + 2) "").toList.contains '$' = true) ∧
      ¬ ((cols.getD (idx + 2) "").toList.any Char.isDigit = true)) := by
    rcases hgate with hg | hg
    · exact fun hcon => hcon.1 hg
    · exact fun hcon => hcon.2 hg
  refine ⟨?_, ?_, ?_⟩
  · have := pySplitAux_length '-' (cols.getD idx "").toList 2 []
    simpa [pySplit] using this
  · intro h3
    simp only [intentarAncla]
    rw [if_pos ⟨hanchor, hrango⟩, if_neg hngate, if_pos h3]
  · intro h3
    simp only [intentarAncla]
    rw [if_pos ⟨hanchor, hrango⟩, if_neg hngate, if_neg (by omega)]

/-- Witness for claim C5 at the two anchor tokens named by the
specification: a three-part token is accepted and split into id and name, a
two-part token is rejected. -/
theorem C5_witness :
    intentarAncla ["NIT-900123456-Clinica Central", "01/01/2025", "$100"] 0 =
      some { NIT_IPS := "900123456", Nombre_IPS := "Clinica Central",
             Fecha_Giro := "01/01/2025", Valor := "$100",
             Concepto := "N/A", Entidad := "N/A" } ∧
    intentarAncla ["NIT-900123456", "01/01/2025", "$100"] 0 = none := by
  constructor
  · exact ((C5_dash_split ["NIT-900123456-Clinica Central", "01/01/2025", "$100"] 0
      (by decide) (by decide) (Or.inl (by decide))).2.1 (by decide)).trans (by decide)
  · exact (C5_dash_split ["NIT-900123456", "01/01/2025", "$100"] 0
      (by decide) (by decide) (Or.inl (by decide))).2.2 (by decide)

/-- Claim C6: the value of each reconstructed record is normalized by
deleting dollar signs, commas and periods and parsing the rest as a number;
records whose stripped value does not parse are dropped.  The named examples
are checked end to end where the gate permits. -/
theorem C6_normalizacion :
    (∀ r : Registro, parseNumero (limpiarValor r.Valor) = none →
      normalizarRegistro r = none) ∧
    parseNumero (limpiarValor "$1.234.567") = some 1234567 ∧
    parseNumero (limpiarValor "$0") = some 0 ∧
    parseNumero (limpiarValor "abc") = none ∧
    limpiar_datos [["a", "NIT-1-A", "d", "$1.234.567", "c", "e"]] =
      [{ NIT_IPS := "1", Nombre_IPS := "A", Fecha_Giro := "d", Valor := 1234567,
         Concepto := "c", Entidad := "e" }] ∧
    limpiar_datos [["a", "NIT-1-A", "d", "$abc", "c", "e"]] = [] := by
  refine ⟨?_, by decide, by decide, by decide, by decide, by decide⟩
  intro r h
  simp [normalizarRegistro, h]

/-- Witness for claim C6: a record whose value strips to non-numeric text is
dropped by normalization. -/
theorem C6_witness :
    normalizarRegistro { NIT_IPS := "1", Nombre_IPS := "A", Fecha_Giro := "d",
                         Valor := "$x", Concepto := "c", Entidad := "e" } = none :=
  C6_normalizacion.1 _ (by decide)

/-- Claim C7: a value candidate outside the compact cell list skips the
anchor entirely, while missing concept or entity offsets merely default to
the text `N/A` in the emitted record; no exception arises (the embedding is
total). -/
theorem C7_offsets (cols : List String) (idx : Nat) :
    (cols.length ≤ idx + 2 → intentarAncla cols idx = none) ∧
    (∀ r : Registro, intentarAncla cols idx = some r →
      (cols.length ≤ idx + 3 → r.Concepto = "N/A") ∧
      (cols.length ≤ idx + 4 → r.Entidad = "N/A")) := by
  constructor
  · intro hge
    simp only [intentarAncla]
    rw [if_neg (fun hcon => absurd hcon.2 (by omega))]
  · intro r hr
    simp only [intentarAncla] at hr
    by_cases h1 : contieneSub (cols.getD idx "") "NIT-" = true ∧ idx + 2 < cols.length
    · rw [if_pos h1] at hr
      by_cases h2 : ¬ ((cols.getD (idx + 2) "").toList.contains '$' = true) ∧
          ¬ ((cols.getD (idx + 2) "").toList.any Char.isDigit = true)
      · rw [if_pos h2] at hr
        exact absurd hr (by simp)
      · rw [if_neg h2] at hr
        by_cases h3 : 3 ≤ (pySplit (cols.getD idx "") '-' 2).length
        · rw [if_pos h3] at hr
          cases hr
          constructor
          · intro h
            simp [if_neg (show ¬ idx + 3 < cols.length by omega)]
          · intro h
            simp [if_neg (show ¬ idx + 4 < cols.length by omega)]
        · rw [if_neg h3] at hr
          exact absurd hr (by simp)
    · rw [if_neg h1] at hr
      exact absurd hr (by simp)

/-- Witness for claim C7: the anchor in the first row has no value candidate
and is skipped; the record from the second row defaults its concept to
`N/A`. -/
theorem C7_witness :
    intentarAncla ["x", "NIT-1-A"] 1 = none ∧
    ({ NIT_IPS := "1", Nombre_IPS := "A", Fecha_Giro := "d", Valor := "$5",
       Concepto := "N/A", Entidad := "N/A" } : Registro).Concepto = "N/A" :=
  ⟨(C7_offsets ["x", "NIT-1-A"] 1).1 (by decide),
   ((C7_offsets ["NIT-1-A", "d", "$5"] 0).2
     { NIT_IPS := "1", Nombre_IPS := "A", Fecha_Giro := "d", Valor := "$5",
       Concepto := "N/A", Entidad := "N/A" } (by decide)).1 (by decide)⟩

/-- Claim C8 is false as stated: when session verification fails, `main`
returns early (line 247 of the source) without ever calling `driver.quit()`,
so this run terminates with the session still held. -/
theorem C8_counterexample :
    (main ["890303208"] false (fun _ => Except.error "fallo")).quitLlamado = false := by
  decide

/-- Claim C8, amended: the session is stopped unconditionally once the
identifier loop has run — even if every fetch failed — but on the
session-verification failure path the run returns early without stopping the
session. -/
theorem C8_amended (nits : List String)
    (resultadoFetch : String → Except String (List (List String))) :
    (main nits true resultadoFetch).quitLlamado = true := by
  simp [main]

/-- Claim C9: an exception inside the fetch of one identifier makes that
fetch return an empty row list, and the run still attempts every unique
identifier; the final dataset is built from the rows of the identifiers
whose fetch succeeded, the failed ones contributing nothing. -/
theorem C9_fetch_isolation :
    (∀ e : String, extraer_datos_nit (Except.error e) = []) ∧
    ∀ (nits : List String)
      (resultadoFetch : String → Except String (List (List String))),
      (main nits true resultadoFetch).intentados = dedupAux nits [] ∧
      (main nits true resultadoFetch).datos =
        limpiar_datos ((dedupAux nits []).flatMap (fun nit =>
          match resultadoFetch nit with
          | Except.ok filas => filas
          | Except.error _ => [])) := by
  refine ⟨fun e => rfl, fun nits f => ⟨by simp [main], ?_⟩⟩
  simp only [main, if_pos trivial]
  rfl

/-- Claim C10: the anchor token is split with a budget of two splits, so the
third part is the entire remainder of the token after the second dash, every
later dash preserved; in particular the token `NIT-123-Clinica-Central`
yields the id `123` and the full name `Clinica-Central`. -/
theorem C10_maxsplit :
    (∀ s a b c : String, pySplit s '-' 2 = [a, b, c] →
      s = a ++ "-" ++ b ++ "-" ++ c) ∧
    limpiar_datos [["x", "NIT-123-Clinica-Central", "d", "$5", "c", "e"]] =
      [{ NIT_IPS := "123", Nombre_IPS := "Clinica-Central", Fecha_Giro := "d",
         Valor := 5, Concepto := "c", Entidad := "e" }] := by
  constructor
  · intro s a b c h
    have hL : pySplitAux '-' s.toList 2 [] = [a.data, b.data, c.data] := by
      have hmap := congrArg (List.map String.data) h
      simp only [pySplit, List.map_map, List.map_cons, List.map_nil] at hmap
      rwa [show String.data ∘ String.mk = id from rfl, List.map_id] at hmap
    have hj := unirCon_pySplitAux '-' s.toList 2 []
    rw [hL] at hj
    apply String.ext
    rw [← (by simpa using hj : a.data ++ '-' :: (b.data ++ '-' :: c.data) = s.data)]
    simp [String.data_append]
  · decide

/-- Witness for claim C10 at the dashed clinic-name token. -/
theorem C10_witness :
    "NIT-123-Clinica-Central" = "NIT" ++ "-" ++ "123" ++ "-" ++ "Clinica-Central" :=
  C10_maxsplit.1 "NIT-123-Clinica-Central" "NIT" "123" "Clinica-Central" (by decide)

end LupaAlGiro
